import Mathlib

/-!
Shallow embedding of the LibrarySystem circulation engine
(`src/LibrarySystem/models/books.py`, `lending.py`, `reservations.py`).

The sqlite database is modelled as an explicit state (`DB`) holding the
tables as association lists keyed by row id.  Dates are modelled at day
granularity as integers (the code only compares datetimes and takes
day differences); money amounts (`fine_amount`, `fine_per_day`) are
modelled as rationals.  `execute_update` on a connected database always
succeeds, as sqlite does in the absence of I/O failures; `execute_query`
returns `none` when the database is not connected, which every method
checks first.

Exceptions: `Lending._process_next_reservation` opens with the call-time
statement `from models.reservations import Reservation` (lending.py:269).
Every launcher of the repository (`run.py`, `main.py`, `library_cli.py`,
`demo.py`, `simple_start.py`, `test_system.py`, `verify.py`) puts only the
`src/` directory on `sys.path`, and no top-level `models` package exists
there, so that import raises `ModuleNotFoundError` whenever the function
runs.  The raise propagates out of `return_book`, which calls it with no
`try`/`except` (lending.py:96); functions that can raise therefore return
`Except PyException · × DB`, the `DB` component being the state already
committed when the exception escapes (each `execute_update` commits
individually).
-/

/-- A Python exception escaping the circulation code. -/
inductive PyException where
  | moduleNotFoundError
  deriving DecidableEq

/-- A row of the `books` table: the columns the circulation logic reads. -/
structure BookRec where
  total_copies : Int
  available_copies : Int
  deriving DecidableEq

/-- A row of the `users` table: only `is_active` matters to circulation. -/
structure UserRec where
  is_active : Bool
  deriving DecidableEq

/-- A row of the `lending` table. -/
structure LendingRec where
  book_id : Nat
  user_id : Nat
  issue_date : Int
  due_date : Option Int
  return_date : Option Int
  fine_amount : ℚ
  status : String
  deriving DecidableEq

/-- A row of the `reservations` table. -/
structure ReservRec where
  book_id : Nat
  user_id : Nat
  reservation_date : Int
  status : String
  notification_sent : Bool
  deriving DecidableEq

/-- A row of the `notifications` table (the message text embeds the book id,
so we keep the id itself). -/
structure NotifRec where
  user_id : Nat
  book_id : Nat
  ntype : String
  deriving DecidableEq

/-- The database state shared by all model classes through `db_manager`. -/
structure DB where
  connected : Bool
  books : List (Nat × BookRec)
  users : List (Nat × UserRec)
  lendings : List (Nat × LendingRec)
  reservations : List (Nat × ReservRec)
  notifications : List NotifRec
  nextLendingId : Nat
  nextReservationId : Nat
  deriving DecidableEq

/-- `SELECT * FROM <table> WHERE id = k` followed by taking the first row:
the first association with key `k`. -/
def lookupRow {α : Type} (k : Nat) : List (Nat × α) → Option α
  | [] => none
  | p :: t => if p.1 = k then some p.2 else lookupRow k t

/-- `UPDATE <table> SET ... WHERE id = k`: replace the value of every row
whose key is `k` (row ids are primary keys, so at most one in a
well-formed table). -/
def updateAssoc {α : Type} (k : Nat) (v : α) (l : List (Nat × α)) : List (Nat × α) :=
  l.map (fun p => if p.1 = k then (p.1, v) else p)

/-- `UPDATE books SET available_copies = n WHERE book_id = bid`. -/
def setAvail (bid : Nat) (n : Int) (l : List (Nat × BookRec)) : List (Nat × BookRec) :=
  l.map (fun p => if p.1 = bid then (p.1, { p.2 with available_copies := n }) else p)

/-- `Book.is_available`. -/
def is_available (b : BookRec) : Bool :=
  b.available_copies > 0

/-- `Book.get_by_id`. -/
def book_get_by_id (db : DB) (bid : Nat) : Option BookRec :=
  if !db.connected then none else lookupRow bid db.books

/-- `User.get_by_id`. -/
def user_get_by_id (db : DB) (uid : Nat) : Option UserRec :=
  if !db.connected then none else lookupRow uid db.users

/-- `Book.update_availability(change)`: reject when the snapshot plus the
delta leaves `[0, total_copies]`, otherwise write the new count to the
book's row.  `self.book_id` is falsy in Python when it is `None` or `0`;
we use key `0` for that case. -/
def update_availability (db : DB) (bid : Nat) (b : BookRec) (change : Int) : Bool × DB :=
  if !db.connected || bid == 0 then (false, db)
  else
    let new_available := b.available_copies + change
    if new_available < 0 then (false, db)
    else if new_available > b.total_copies then (false, db)
    else (true, { db with books := setAvail bid new_available db.books })

/-- `SELECT * FROM lending WHERE book_id = ? AND user_id = ? AND status = 'active'`
is non-empty. -/
def has_active_lending (db : DB) (bid uid : Nat) : Bool :=
  db.lendings.any (fun p => p.2.book_id == bid && p.2.user_id == uid && p.2.status == "active")

/-- `SELECT * FROM reservations WHERE book_id = ? AND user_id = ? AND status = 'pending'`
is non-empty. -/
def has_pending_reservation (db : DB) (bid uid : Nat) : Bool :=
  db.reservations.any (fun p => p.2.book_id == bid && p.2.user_id == uid && p.2.status == "pending")

/-- The pending reservations of one book, in table order. -/
def pendingFor (bid : Nat) (rs : List (Nat × ReservRec)) : List (Nat × ReservRec) :=
  rs.filter (fun p => p.2.book_id == bid && p.2.status == "pending")

/-- One step of the minimal-date scan: keep the row with the strictly
smaller date, the earlier row on ties. -/
def earliestStep (acc : Option (Nat × ReservRec)) (p : Nat × ReservRec) :
    Option (Nat × ReservRec) :=
  match acc with
  | none => some p
  | some q => if p.2.reservation_date < q.2.reservation_date then some p else some q

/-- `ORDER BY reservation_date LIMIT 1` over a list already filtered to one
book's pending rows: the first row carrying the minimal date (sqlite's
stable scan keeps earlier rows on ties). -/
def earliest (l : List (Nat × ReservRec)) : Option (Nat × ReservRec) :=
  l.foldl earliestStep none

/-- The call-time `from models.reservations import Reservation` at
lending.py:269.  Under the repository's import root (only `src/` on
`sys.path`, no top-level `models` package) it raises
`ModuleNotFoundError`. -/
def import_models_reservations : Except PyException Unit :=
  Except.error PyException.moduleNotFoundError

/-- `Lending._process_next_reservation(book_id)`.  Its first statement is
the import above, which raises before the first query, so the body below
the import — look up the oldest pending reservation and, when there is
one, insert a notification row for its holder — is dead code; the function
always raises with the state unchanged. -/
def process_next_reservation (db : DB) (bid : Nat) : Except PyException Unit × DB :=
  match import_models_reservations with
  | Except.error e => (Except.error e, db)
  | Except.ok _ =>
    if !db.connected then (Except.ok (), db)
    else
      match earliest (pendingFor bid db.reservations) with
      | none => (Except.ok (), db)
      | some (_, r) =>
          (Except.ok (), { db with notifications :=
              db.notifications ++
                [{ user_id := r.user_id, book_id := bid, ntype := "reservation" }] })

/-- `Lending.issue_book(book_id, user_id, loan_days)` at current time `now`.
Returns the created lending record (if any) and the new state. -/
def issue_book (db : DB) (bid uid : Nat) (loan_days : Int) (now : Int) :
    Option LendingRec × DB :=
  if !db.connected then (none, db)
  else
    match book_get_by_id db bid with
    | none => (none, db)
    | some book =>
      if !(is_available book) then (none, db)
      else
        match user_get_by_id db uid with
        | none => (none, db)
        | some user =>
          if !user.is_active then (none, db)
          else if has_active_lending db bid uid then (none, db)
          else
            let lending : LendingRec :=
              { book_id := bid, user_id := uid, issue_date := now,
                due_date := some (now + loan_days), return_date := none,
                fine_amount := 0, status := "active" }
            let lid := db.nextLendingId
            let db1 := { db with
              lendings := db.lendings ++ [(lid, lending)],
              nextLendingId := lid + 1 }
            match update_availability db1 bid book (-1) with
            | (true, db2) => (some lending, db2)
            | (false, db2) =>
                (none, { db2 with lendings := db2.lendings.filter (fun p => p.1 ≠ lid) })

/-- `Lending.return_book(lending_id, fine_amount)` at current time `now`.
The Python parameter `fine_amount` defaults to `0.0`; calls without an
override correspond to `fine = 0`.  When the loan update and the
availability increment both commit, the call to
`_process_next_reservation` (lending.py:96) raises, so the exception
propagates with those writes already committed and `return True` at
lending.py:97 is never reached. -/
def return_book (db : DB) (lid : Nat) (fine : ℚ) (now : Int) :
    Except PyException Bool × DB :=
  if !db.connected then (Except.ok false, db)
  else
    match lookupRow lid db.lendings with
    | none => (Except.ok false, db)
    | some lending =>
      if lending.status ≠ "active" then (Except.ok false, db)
      else
        let updated : LendingRec :=
          { lending with return_date := some now, fine_amount := fine, status := "returned" }
        let db1 := { db with lendings := updateAssoc lid updated db.lendings }
        match book_get_by_id db1 lending.book_id with
        | none => (Except.ok false, db1)
        | some book =>
          match update_availability db1 lending.book_id book 1 with
          | (true, db2) =>
            match process_next_reservation db2 lending.book_id with
            | (Except.ok _, db3) => (Except.ok true, db3)
            | (Except.error e, db3) => (Except.error e, db3)
          | (false, db2) => (Except.ok false, db2)

/-- `Reservation.create_reservation(book_id, user_id)` at current time `now`. -/
def create_reservation (db : DB) (bid uid : Nat) (now : Int) : Option ReservRec × DB :=
  if !db.connected then (none, db)
  else
    match book_get_by_id db bid with
    | none => (none, db)
    | some book =>
      match user_get_by_id db uid with
      | none => (none, db)
      | some user =>
        if !user.is_active then (none, db)
        else if is_available book then (none, db)
        else if has_pending_reservation db bid uid then (none, db)
        else if has_active_lending db bid uid then (none, db)
        else
          let r : ReservRec :=
            { book_id := bid, user_id := uid, reservation_date := now,
              status := "pending", notification_sent := false }
          (some r, { db with
            reservations := db.reservations ++ [(db.nextReservationId, r)],
            nextReservationId := db.nextReservationId + 1 })

/-- The holder's own pending reservations of a book, in table order
(the scalar subquery of `get_queue_position` reads the first of these). -/
def ownPending (db : DB) (bid uid : Nat) : List (Nat × ReservRec) :=
  db.reservations.filter
    (fun p => p.2.book_id == bid && p.2.user_id == uid && p.2.status == "pending")

/-- `Reservation.get_queue_position(book_id, user_id)`: a `COUNT(*)` of the
book's pending rows whose date is strictly below the scalar subquery's
value, plus one.  When the subquery is empty the SQL comparison with NULL
holds for no row, the count is `0`, and the method still returns `0 + 1`. -/
def get_queue_position (db : DB) (bid uid : Nat) : Option Nat :=
  if !db.connected then none
  else
    let sub := ((ownPending db bid uid).head?).map (fun p => p.2.reservation_date)
    let cnt :=
      (db.reservations.filter (fun p =>
        p.2.book_id == bid && p.2.status == "pending" &&
        (match sub with
         | some d0 => decide (p.2.reservation_date < d0)
         | none => false))).length
    some (cnt + 1)

/-- `Lending.is_overdue` as a function of the row's status, due date and the
current day. -/
def is_overdue (status : String) (due_date : Option Int) (now : Int) : Bool :=
  match due_date with
  | none => false
  | some d => status == "active" && now > d

/-- `Lending.days_overdue`: `(now - due_date).days` when overdue, else `0`. -/
def days_overdue (status : String) (due_date : Option Int) (now : Int) : Int :=
  if !(is_overdue status due_date now) then 0
  else
    match due_date with
    | none => 0
    | some d => now - d

/-- `Lending.calculate_fine(fine_per_day)`. -/
def calculate_fine (status : String) (due_date : Option Int) (now : Int)
    (fine_per_day : ℚ) : ℚ :=
  let days := days_overdue status due_date now
  if days > 0 then (days : ℚ) * fine_per_day else 0

/-- One public circulation operation that mutates availability. -/
inductive CircOp where
  | issue (bid uid : Nat) (loan_days now : Int)
  | ret (lid : Nat) (fine : ℚ) (now : Int)

/-- Run one operation for its state effect. -/
def applyOp (db : DB) (op : CircOp) : DB :=
  match op with
  | .issue bid uid d n => (issue_book db bid uid d n).2
  | .ret lid f n => (return_book db lid f n).2

/-- Run a sequence of issue/return operations. -/
def applyOps (db : DB) (ops : List CircOp) : DB :=
  ops.foldl applyOp db

/-- The per-book data invariant. -/
def booksInv (l : List (Nat × BookRec)) : Prop :=
  ∀ p ∈ l, 0 ≤ p.2.available_copies ∧ p.2.available_copies ≤ p.2.total_copies

/-- Row ids are unique (primary keys). -/
def keysNodup {α : Type} (l : List (Nat × α)) : Prop :=
  l.Pairwise (fun p q => p.1 ≠ q.1)

instance booksInvDecidable (l : List (Nat × BookRec)) : Decidable (booksInv l) := by
  unfold booksInv
  infer_instance

instance keysNodupDecidable {α : Type} (l : List (Nat × α)) : Decidable (keysNodup l) := by
  unfold keysNodup
  infer_instance


/-! ### Concrete states used as witnesses and counterexamples.
Dates are day numbers since 1970-01-01: 2024-01-10 is 19732,
2024-01-15 is 19737. -/

/-- One-copy book, the copy on the shelf. -/
def bookOne : BookRec := { total_copies := 1, available_copies := 1 }

/-- One-copy book, the copy lent out. -/
def bookZero : BookRec := { total_copies := 1, available_copies := 0 }

/-- An active loan of book 1 by user 1, due on day 14. -/
def loanActive : LendingRec :=
  { book_id := 1, user_id := 1, issue_date := 0, due_date := some 14,
    return_date := none, fine_amount := 0, status := "active" }

/-- An active loan of book 1 by user 1, due 2024-01-10. -/
def loanOverdue : LendingRec :=
  { book_id := 1, user_id := 1, issue_date := 19718, due_date := some 19732,
    return_date := none, fine_amount := 0, status := "active" }

/-- Base state: connected, one book with its single copy available, one
active loan of it (an inconsistent ledger, reachable as raw table
contents), one active user. -/
def dbBase : DB :=
  { connected := true, books := [(1, bookOne)], users := [(1, { is_active := true })],
    lendings := [(1, loanActive)], reservations := [], notifications := [],
    nextLendingId := 2, nextReservationId := 1 }

/-- Consistent state: the single copy is out with loan 1. -/
def dbRet : DB := { dbBase with books := [(1, bookZero)] }

/-- Consistent state with an overdue active loan (due 2024-01-10). -/
def dbOverdue : DB := { dbRet with lendings := [(1, loanOverdue)] }

/-- User 5's pending reservation of book 1, asked on day 3. -/
def resFive : ReservRec :=
  { book_id := 1, user_id := 5, reservation_date := 3,
    status := "pending", notification_sent := false }

/-- User 2's pending reservation of book 1, asked on day 7. -/
def resTwo : ReservRec :=
  { book_id := 1, user_id := 2, reservation_date := 7,
    status := "pending", notification_sent := false }

/-- Two pending reservations of book 1: user 5 asked on day 3, user 2 on
day 7; no copies available, no loans. -/
def dbRes : DB :=
  { connected := true, books := [(1, bookZero)],
    users := [(1, { is_active := true }), (2, { is_active := true }),
      (5, { is_active := true })],
    lendings := [],
    reservations := [(1, resFive), (2, resTwo)],
    notifications := [], nextLendingId := 1, nextReservationId := 3 }

/-- Disconnected database. -/
def dbOff : DB := { dbBase with connected := false }

/-! ### Association-list lemmas -/

theorem lookupRow_updateAssoc_self {α : Type} {l : List (Nat × α)} {k : Nat} {v : α} (w : α)
    (h : lookupRow k l = some v) : lookupRow k (updateAssoc k w l) = some w := by
  induction l with
  | nil => simp [lookupRow] at h
  | cons p t ih =>
    by_cases hk : p.1 = k
    · simp [lookupRow, updateAssoc, hk]
    · simp only [lookupRow, hk, if_neg, if_false] at h
      simp [lookupRow, updateAssoc, hk] at *
      exact ih h

theorem lookupRow_setAvail_self {l : List (Nat × BookRec)} {k : Nat} {b : BookRec} (n : Int)
    (h : lookupRow k l = some b) :
    lookupRow k (setAvail k n l) = some { b with available_copies := n } := by
  induction l with
  | nil => simp [lookupRow] at h
  | cons p t ih =>
    by_cases hk : p.1 = k
    · simp only [lookupRow, hk, if_pos] at h
      have hb : p.2 = b := Option.some_injective _ h
      simp [lookupRow, setAvail, hk, hb]
    · simp only [lookupRow, hk, if_neg, if_false] at h
      simp [lookupRow, setAvail, hk] at *
      exact ih h

theorem setAvail_map_fst (bid : Nat) (n : Int) (l : List (Nat × BookRec)) :
    (setAvail bid n l).map Prod.fst = l.map Prod.fst := by
  induction l with
  | nil => rfl
  | cons p t ih =>
    by_cases h : p.1 = bid
    · simpa [setAvail, h] using ih
    · simpa [setAvail, h] using ih

theorem keysNodup_setAvail {l : List (Nat × BookRec)} {bid : Nat} {n : Int}
    (h : keysNodup l) : keysNodup (setAvail bid n l) := by
  unfold keysNodup at *
  have h1 : ((setAvail bid n l).map Prod.fst).Pairwise (· ≠ ·) := by
    rw [setAvail_map_fst]
    exact (List.pairwise_map).2 h
  exact (List.pairwise_map).1 h1

theorem mem_eq_of_lookupRow {α : Type} {k : Nat} {v : α} :
    ∀ {l : List (Nat × α)}, keysNodup l → lookupRow k l = some v →
      ∀ p ∈ l, p.1 = k → p.2 = v := by
  intro l
  induction l with
  | nil => intro _ h; simp [lookupRow] at h
  | cons q t ih =>
    intro hnd hl p hp hpk
    rcases List.mem_cons.1 hp with rfl | hpt
    · simp only [lookupRow, hpk, if_pos] at hl
      exact Option.some_injective _ hl
    · rcases hnd with _ | ⟨hq, hnd'⟩
      by_cases hk : q.1 = k
      · exact absurd (hk.trans hpk.symm) (hq p hpt)
      · simp only [lookupRow, hk, if_neg, if_false] at hl
        exact ih hnd' hl p hpt hpk

/-! ### Ledger lemmas -/

theorem booksInv_setAvail {l : List (Nat × BookRec)} {bid : Nat} {b : BookRec} {n : Int}
    (hnd : keysNodup l) (hl : lookupRow bid l = some b) (hinv : booksInv l)
    (h0 : 0 ≤ n) (h1 : n ≤ b.total_copies) : booksInv (setAvail bid n l) := by
  intro p hp
  unfold setAvail at hp
  rcases List.mem_map.1 hp with ⟨q, hq, rfl⟩
  by_cases hk : q.1 = bid
  · have hqb : q.2 = b := mem_eq_of_lookupRow hnd hl q hq hk
    simp only [hk, if_pos]
    exact ⟨h0, by rw [hqb]; exact h1⟩
  · simp only [hk, if_neg, if_false]
    exact hinv q hq

theorem update_availability_reject (db : DB) (bid : Nat) (b : BookRec) (ch : Int)
    (h : b.available_copies + ch < 0 ∨ b.total_copies < b.available_copies + ch) :
    update_availability db bid b ch = (false, db) := by
  unfold update_availability
  split
  · rfl
  · dsimp only
    by_cases hneg : b.available_copies + ch < 0
    · rw [if_pos hneg]
    · rcases h with h | h
      · exact absurd h hneg
      · rw [if_neg hneg, if_pos h]

theorem update_availability_success (db : DB) (bid : Nat) (b : BookRec) (ch : Int)
    (hc : db.connected = true) (hb : bid ≠ 0)
    (h0 : 0 ≤ b.available_copies + ch) (h1 : b.available_copies + ch ≤ b.total_copies) :
    update_availability db bid b ch =
      (true, { db with books := setAvail bid (b.available_copies + ch) db.books }) := by
  unfold update_availability
  have hcond : (!db.connected || (bid == 0)) = false := by
    simp [hc, hb]
  rw [hcond]
  dsimp only [Bool.false_eq_true, if_false]
  have hneg : ¬(b.available_copies + ch < 0) := by omega
  have hgt : ¬(b.available_copies + ch > b.total_copies) := by omega
  rw [if_neg hneg, if_neg hgt]
  simp

theorem update_availability_snd (db : DB) (bid : Nat) (b : BookRec) (ch : Int) :
    (update_availability db bid b ch).2 = db ∨
      (update_availability db bid b ch).2 =
        { db with books := setAvail bid (b.available_copies + ch) db.books } := by
  unfold update_availability
  split
  · exact Or.inl rfl
  · dsimp only
    split
    · exact Or.inl rfl
    · split
      · exact Or.inl rfl
      · exact Or.inr rfl

theorem update_availability_inv (db : DB) (bid : Nat) (b : BookRec) (ch : Int)
    (hnd : keysNodup db.books) (hinv : booksInv db.books)
    (hl : lookupRow bid db.books = some b) :
    booksInv (update_availability db bid b ch).2.books ∧
      keysNodup (update_availability db bid b ch).2.books := by
  unfold update_availability
  split
  · exact ⟨hinv, hnd⟩
  · dsimp only
    split
    · exact ⟨hinv, hnd⟩
    · split
      · exact ⟨hinv, hnd⟩
      · rename_i hn0 hn1
        exact ⟨booksInv_setAvail hnd hl hinv (by omega) (by omega), keysNodup_setAvail hnd⟩

theorem update_availability_frame (db : DB) (bid : Nat) (b : BookRec) (ch : Int) :
    (update_availability db bid b ch).2.connected = db.connected ∧
    (update_availability db bid b ch).2.users = db.users ∧
    (update_availability db bid b ch).2.lendings = db.lendings ∧
    (update_availability db bid b ch).2.reservations = db.reservations ∧
    (update_availability db bid b ch).2.notifications = db.notifications ∧
    (update_availability db bid b ch).2.nextLendingId = db.nextLendingId ∧
    (update_availability db bid b ch).2.nextReservationId = db.nextReservationId := by
  rcases update_availability_snd db bid b ch with h | h <;>
    rw [h] <;> exact ⟨rfl, rfl, rfl, rfl, rfl, rfl, rfl⟩

theorem process_next_reservation_raise (db : DB) (bid : Nat) :
    process_next_reservation db bid =
      (Except.error PyException.moduleNotFoundError, db) :=
  rfl

theorem book_get_by_id_some {db : DB} {bid : Nat} {b : BookRec}
    (h : book_get_by_id db bid = some b) :
    db.connected = true ∧ lookupRow bid db.books = some b := by
  unfold book_get_by_id at h
  cases hc : db.connected with
  | false => rw [hc] at h; simp at h
  | true => rw [hc] at h; simp at h; exact ⟨rfl, h⟩


theorem update_availability_inv2 {db : DB} {bid : Nat} {b : BookRec} {ch : Int}
    {ok : Bool} {db2 : DB}
    (heq : update_availability db bid b ch = (ok, db2))
    (hnd : keysNodup db.books) (hinv : booksInv db.books)
    (hl : lookupRow bid db.books = some b) :
    booksInv db2.books ∧ keysNodup db2.books := by
  have h := update_availability_inv db bid b ch hnd hinv hl
  rw [heq] at h
  exact h

theorem issue_book_inv (db : DB) (bid uid : Nat) (d n : Int)
    (hnd : keysNodup db.books) (hinv : booksInv db.books) :
    booksInv (issue_book db bid uid d n).2.books ∧
      keysNodup (issue_book db bid uid d n).2.books := by
  unfold issue_book
  split
  · exact ⟨hinv, hnd⟩
  · split
    · exact ⟨hinv, hnd⟩
    · rename_i book hbook
      split
      · exact ⟨hinv, hnd⟩
      · split
        · exact ⟨hinv, hnd⟩
        · split
          · exact ⟨hinv, hnd⟩
          · split
            · exact ⟨hinv, hnd⟩
            · have hlook : lookupRow bid db.books = some book :=
                (book_get_by_id_some hbook).2
              dsimp only
              split
              · rename_i db2 heq
                exact update_availability_inv2 heq hnd hinv hlook
              · rename_i db2 heq
                have h : booksInv db2.books ∧ keysNodup db2.books :=
                  update_availability_inv2 heq hnd hinv hlook
                exact ⟨h.1, h.2⟩

theorem return_book_inv (db : DB) (lid : Nat) (f : ℚ) (n : Int)
    (hnd : keysNodup db.books) (hinv : booksInv db.books) :
    booksInv (return_book db lid f n).2.books ∧
      keysNodup (return_book db lid f n).2.books := by
  unfold return_book
  split
  · exact ⟨hinv, hnd⟩
  · split
    · exact ⟨hinv, hnd⟩
    · rename_i lending hlend
      split
      · exact ⟨hinv, hnd⟩
      · dsimp only
        split
        · exact ⟨hinv, hnd⟩
        · rename_i book hbook
          have hlook := (book_get_by_id_some hbook).2
          split
          · rename_i db2 heq
            rw [process_next_reservation_raise db2 lending.book_id]
            exact update_availability_inv2 heq hnd hinv hlook
          · rename_i db2 heq
            exact update_availability_inv2 heq hnd hinv hlook

theorem applyOp_inv (db : DB) (op : CircOp)
    (hnd : keysNodup db.books) (hinv : booksInv db.books) :
    booksInv (applyOp db op).books ∧ keysNodup (applyOp db op).books := by
  cases op with
  | issue bid uid d n => exact issue_book_inv db bid uid d n hnd hinv
  | ret lid f n => exact return_book_inv db lid f n hnd hinv

theorem applyOps_inv (ops : List CircOp) (db : DB)
    (hnd : keysNodup db.books) (hinv : booksInv db.books) :
    booksInv (applyOps db ops).books := by
  induction ops generalizing db with
  | nil => exact hinv
  | cons op t ih =>
    have h := applyOp_inv db op hnd hinv
    simpa [applyOps, List.foldl_cons] using ih (applyOp db op) h.2 h.1

/-- When the loan is active and the increment is accepted, `return_book`
commits the returned loan row and the incremented availability, and then
raises from the promotion step: the exception escapes with exactly those
two writes committed, and no success value is returned. -/
theorem return_book_commit_then_raise (db : DB) (lid : Nat) (f : ℚ) (n : Int)
    (l : LendingRec) (b : BookRec)
    (hc : db.connected = true)
    (hl : lookupRow lid db.lendings = some l)
    (hst : l.status = "active")
    (hb : lookupRow l.book_id db.books = some b)
    (hbid : l.book_id ≠ 0)
    (h0 : 0 ≤ b.available_copies + 1)
    (h1 : b.available_copies + 1 ≤ b.total_copies) :
    return_book db lid f n =
      (Except.error PyException.moduleNotFoundError,
        { db with
          lendings := updateAssoc lid
            { l with return_date := some n, fine_amount := f, status := "returned" }
            db.lendings,
          books := setAvail l.book_id (b.available_copies + 1) db.books }) := by
  have hA : ¬(b.available_copies + 1 < 0) := by omega
  have hB : ¬(b.available_copies + 1 > b.total_copies) := by omega
  simp only [return_book, hc, hl, hst, book_get_by_id, update_availability, hb, hbid,
    process_next_reservation, import_models_reservations,
    Bool.not_true, Bool.false_eq_true, if_false, ne_eq, not_true_eq_false,
    beq_iff_eq, Bool.false_or, if_neg hA, if_neg hB]

/-! ### Promotion and early-exit lemmas -/

theorem return_book_not_active (db : DB) (lid : Nat) (f : ℚ) (n : Int) (l : LendingRec)
    (hl : lookupRow lid db.lendings = some l) (hst : l.status ≠ "active") :
    return_book db lid f n = (Except.ok false, db) := by
  unfold return_book
  split
  · rfl
  · simp only [hl]
    rw [if_pos hst]

theorem earliest_foldl (l : List (Nat × ReservRec)) (a : Nat × ReservRec) :
    ∃ x, l.foldl earliestStep (some a) = some x ∧ (x = a ∨ x ∈ l) ∧
      x.2.reservation_date ≤ a.2.reservation_date ∧
      ∀ y ∈ l, x.2.reservation_date ≤ y.2.reservation_date := by
  induction l generalizing a with
  | nil => exact ⟨a, rfl, Or.inl rfl, le_refl _, by simp⟩
  | cons p t ih =>
    by_cases h : p.2.reservation_date < a.2.reservation_date
    · rcases ih p with ⟨x, hx, hmem, hle, hall⟩
      refine ⟨x, ?_, ?_, ?_, ?_⟩
      · simpa [List.foldl_cons, earliestStep, h] using hx
      · rcases hmem with rfl | hm
        · exact Or.inr (List.mem_cons_self _ _)
        · exact Or.inr (List.mem_cons_of_mem _ hm)
      · exact le_trans hle (le_of_lt h)
      · intro y hy
        rcases List.mem_cons.1 hy with rfl | hm
        · exact hle
        · exact hall y hm
    · rcases ih a with ⟨x, hx, hmem, hle, hall⟩
      refine ⟨x, ?_, ?_, ?_, ?_⟩
      · simpa [List.foldl_cons, earliestStep, h] using hx
      · rcases hmem with rfl | hm
        · exact Or.inl rfl
        · exact Or.inr (List.mem_cons_of_mem _ hm)
      · exact hle
      · intro y hy
        rcases List.mem_cons.1 hy with rfl | hm
        · exact le_trans hle (le_of_not_lt h)
        · exact hall y hm

theorem earliest_spec {l : List (Nat × ReservRec)} {x : Nat × ReservRec}
    (h : earliest l = some x) :
    x ∈ l ∧ ∀ y ∈ l, x.2.reservation_date ≤ y.2.reservation_date := by
  cases l with
  | nil => simp [earliest] at h
  | cons p t =>
    rcases earliest_foldl t p with ⟨z, hz, hmem, hle, hall⟩
    have hfold : earliest (p :: t) = t.foldl earliestStep (some p) := by
      simp [earliest, List.foldl_cons, earliestStep]
    rw [hfold, hz] at h
    obtain rfl : z = x := Option.some_injective _ h
    constructor
    · rcases hmem with rfl | hm
      · exact List.mem_cons_self _ _
      · exact List.mem_cons_of_mem _ hm
    · intro y hy
      rcases List.mem_cons.1 hy with rfl | hm
      · exact hle
      · exact hall y hm

theorem mem_pendingFor {bid : Nat} {rs : List (Nat × ReservRec)} {p : Nat × ReservRec} :
    p ∈ pendingFor bid rs ↔ p ∈ rs ∧ p.2.book_id = bid ∧ p.2.status = "pending" := by
  simp [pendingFor, List.mem_filter, and_assoc]

theorem update_availability_frame2 {db : DB} {bid : Nat} {b : BookRec} {ch : Int}
    {ok : Bool} {db2 : DB} (heq : update_availability db bid b ch = (ok, db2)) :
    db2.connected = db.connected ∧ db2.users = db.users ∧ db2.lendings = db.lendings ∧
    db2.reservations = db.reservations ∧ db2.notifications = db.notifications ∧
    db2.nextLendingId = db.nextLendingId ∧ db2.nextReservationId = db.nextReservationId := by
  have h := update_availability_frame db bid b ch
  rw [heq] at h
  exact h

theorem issue_book_zero_avail (db : DB) (bid uid : Nat) (d n : Int) (b : BookRec)
    (hb : lookupRow bid db.books = some b) (hz : b.available_copies = 0) :
    issue_book db bid uid d n = (none, db) := by
  unfold issue_book
  split
  · rfl
  · split
    · rfl
    · rename_i book hbook
      have h2 := (book_get_by_id_some hbook).2
      rw [hb] at h2
      have hbb : book = b := (Option.some_injective _ h2).symm
      rw [hbb]
      simp [is_available, hz]

theorem issue_book_fail_lendings (db : DB) (bid uid : Nat) (d n : Int)
    (hfresh : ∀ p ∈ db.lendings, p.1 < db.nextLendingId) :
    (issue_book db bid uid d n).1 = none →
    (issue_book db bid uid d n).2.lendings = db.lendings := by
  unfold issue_book
  split
  · intro _; rfl
  · split
    · intro _; rfl
    · split
      · intro _; rfl
      · split
        · intro _; rfl
        · split
          · intro _; rfl
          · split
            · intro _; rfl
            · dsimp only
              split
              · rename_i db2 heq
                intro h
                simp at h
              · rename_i db2 heq
                intro _
                have hfr := (update_availability_frame2 heq).2.2.1
                dsimp only at hfr ⊢
                rw [hfr]
                rw [List.filter_append]
                have h1 : db.lendings.filter (fun p => decide (p.1 ≠ db.nextLendingId))
                    = db.lendings := by
                  rw [List.filter_eq_self]
                  intro p hp
                  simpa using Nat.ne_of_lt (hfresh p hp)
                have h2 : List.filter (fun p => decide (p.1 ≠ db.nextLendingId))
                    [(db.nextLendingId,
                      ({ book_id := bid, user_id := uid, issue_date := n,
                         due_date := some (n + d), return_date := none,
                         fine_amount := 0, status := "active" } : LendingRec))] = [] := by
                  simp
                rw [h1, h2, List.append_nil]

/-! ### The claims -/

/-- C1: `Book.update_availability` applies the delta only when the result
stays within `[0, total_copies]`: an out-of-range delta fails with the state
unchanged, an in-range delta (on a connected database with a real book id)
writes exactly the new count; consequently every sequence of issue/return
operations preserves `0 ≤ available_copies ≤ total_copies` for every book
row of a well-keyed table. -/
theorem c1_update_availability_guard_and_invariant :
    (∀ (db : DB) (bid : Nat) (b : BookRec) (ch : Int),
        (b.available_copies + ch < 0 ∨ b.total_copies < b.available_copies + ch) →
        update_availability db bid b ch = (false, db)) ∧
    (∀ (db : DB) (bid : Nat) (b : BookRec) (ch : Int),
        db.connected = true → bid ≠ 0 →
        0 ≤ b.available_copies + ch → b.available_copies + ch ≤ b.total_copies →
        update_availability db bid b ch =
          (true, { db with books := setAvail bid (b.available_copies + ch) db.books })) ∧
    (∀ (ops : List CircOp) (db : DB),
        keysNodup db.books → booksInv db.books →
        booksInv (applyOps db ops).books) :=
  ⟨update_availability_reject, update_availability_success, applyOps_inv⟩

/-- Witness for C1 at concrete inputs: a delta of −2 on the one-available
book is rejected without change, and a concrete issue/return sequence
keeps the invariant. -/
theorem c1_witness :
    update_availability dbBase 1 bookOne (-2) = (false, dbBase) ∧
    booksInv (applyOps dbBase [CircOp.ret 1 0 20, CircOp.issue 1 1 14 21]).books := by
  constructor
  · exact c1_update_availability_guard_and_invariant.1 dbBase 1 bookOne (-2) (by decide)
  · exact c1_update_availability_guard_and_invariant.2.2
      [CircOp.ret 1 0 20, CircOp.issue 1 1 14 21] dbBase (by decide) (by decide)

/-- C2 (code bug): `return_book` saves the loan as returned before looking
up the book and adjusting the ledger, and never rolls that save back.  On
`dbBase` — an active loan whose book already shows
`available_copies = total_copies`, so the increment is rejected — the call
fails, yet the loan is left with status `"returned"` while `books` is
unchanged: the state is not as before the call, and a returned loan exists
whose matching increment never happened. -/
theorem c2_return_book_partial_commit :
    (return_book dbBase 1 0 20).1 = Except.ok false ∧
    (lookupRow 1 dbBase.lendings).map LendingRec.status = some "active" ∧
    (lookupRow 1 (return_book dbBase 1 0 20).2.lendings).map LendingRec.status
      = some "returned" ∧
    (return_book dbBase 1 0 20).2.books = dbBase.books :=
  ⟨rfl, by decide, by decide, by decide⟩

/-- C3: when the book row shows zero available copies, `issue_book` fails
and returns the state unchanged; and more generally any failing
`issue_book` on a table with fresh lending ids leaves the lending table
exactly as before (the inserted loan is deleted again when the decrement
is rejected), so no loan is ever persisted without its ledger decrement. -/
theorem c3_issue_book_unavailable_no_loan :
    (∀ (db : DB) (bid uid : Nat) (d n : Int) (b : BookRec),
        lookupRow bid db.books = some b → b.available_copies = 0 →
        issue_book db bid uid d n = (none, db)) ∧
    (∀ (db : DB) (bid uid : Nat) (d n : Int),
        (∀ p ∈ db.lendings, p.1 < db.nextLendingId) →
        (issue_book db bid uid d n).1 = none →
        (issue_book db bid uid d n).2.lendings = db.lendings) :=
  ⟨issue_book_zero_avail, issue_book_fail_lendings⟩

/-- Witness for C3: issuing the fully-lent book of `dbRet` fails and
changes nothing. -/
theorem c3_witness :
    issue_book dbRet 1 1 14 0 = (none, dbRet) ∧
    (issue_book dbRet 1 1 14 0).2.lendings = dbRet.lendings := by
  constructor
  · exact c3_issue_book_unavailable_no_loan.1 dbRet 1 1 14 0 bookZero (by decide) (by decide)
  · exact c3_issue_book_unavailable_no_loan.2 dbRet 1 1 14 0 (by decide) (by decide)

/-- C4 counterexample: returning the overdue loan of `dbOverdue`
(due 2024-01-10, returned 2024-01-15) without an override never succeeds:
the call raises `ModuleNotFoundError` from the promotion step, and the
fine it commits on the way is 0, while the fine computation
(`calculate_fine` at rate 1) gives 5 — there is no successful Return
setting `fineAmount = FineCalculator(dueDate, now)`. -/
theorem c4_counterexample :
    (return_book dbOverdue 1 0 19737).1 =
      Except.error PyException.moduleNotFoundError ∧
    (lookupRow 1 (return_book dbOverdue 1 0 19737).2.lendings).map LendingRec.fine_amount
      = some 0 ∧
    calculate_fine "active" (some 19732) 19737 1 = 5 ∧ (0 : ℚ) ≠ 5 :=
  ⟨rfl, by decide, by norm_num [calculate_fine, days_overdue, is_overdue], by norm_num⟩

/-- C4 (amended): `return_book` has no successful exit.  When the loan is
active and the availability increment is accepted, it commits
`return_date = now`, `status = "returned"` and `fine_amount` equal to the
caller-supplied parameter (which defaults to 0.0; `calculate_fine` is
never consulted), increments the book's available copies by one, and then
raises `ModuleNotFoundError` from the vestigial import inside
`_process_next_reservation` instead of returning success. -/
theorem c4_return_book_fields (db : DB) (lid : Nat) (f : ℚ) (n : Int)
    (l : LendingRec) (b : BookRec)
    (hc : db.connected = true)
    (hl : lookupRow lid db.lendings = some l)
    (hst : l.status = "active")
    (hb : lookupRow l.book_id db.books = some b)
    (hbid : l.book_id ≠ 0)
    (h0 : 0 ≤ b.available_copies + 1)
    (h1 : b.available_copies + 1 ≤ b.total_copies) :
    (return_book db lid f n).1 = Except.error PyException.moduleNotFoundError ∧
    lookupRow lid (return_book db lid f n).2.lendings =
      some { l with return_date := some n, fine_amount := f, status := "returned" } ∧
    (lookupRow l.book_id (return_book db lid f n).2.books).map BookRec.available_copies =
      some (b.available_copies + 1) := by
  have hs := return_book_commit_then_raise db lid f n l b hc hl hst hb hbid h0 h1
  rw [hs]
  dsimp only
  refine ⟨rfl, ?_, ?_⟩
  · exact lookupRow_updateAssoc_self _ hl
  · rw [lookupRow_setAvail_self _ hb]
    rfl

/-- Witness for C4 (amended) on the concrete state `dbRet`. -/
theorem c4_witness :
    (return_book dbRet 1 0 20).1 = Except.error PyException.moduleNotFoundError ∧
    lookupRow 1 (return_book dbRet 1 0 20).2.lendings =
      some { loanActive with return_date := some 20, fine_amount := 0, status := "returned" } ∧
    (lookupRow loanActive.book_id (return_book dbRet 1 0 20).2.books).map
      BookRec.available_copies = some (bookZero.available_copies + 1) :=
  c4_return_book_fields dbRet 1 0 20 loanActive bookZero (by decide) (by decide) (by decide)
    (by decide) (by decide) (by decide) (by decide)

/-- C5 counterexample: on `dbRes` — book 1 has two pending reservations,
user 5's being the oldest — promotion emits no notification at all and
sets no `notification_sent` flag: `_process_next_reservation` raises
`ModuleNotFoundError` on its vestigial call-time import before its first
query, and the state comes back unchanged. -/
theorem c5_counterexample :
    (process_next_reservation dbRes 1).1 =
      Except.error PyException.moduleNotFoundError ∧
    (process_next_reservation dbRes 1).2.notifications = [] ∧
    (lookupRow 1 (process_next_reservation dbRes 1).2.reservations).map
      ReservRec.notification_sent = some false :=
  ⟨rfl, rfl, by decide⟩

/-- C5 (amended): `_process_next_reservation` never performs a promotion.
Its first statement, the call-time `from models.reservations import
Reservation` (lending.py:269), raises `ModuleNotFoundError` under the
repository's import root before the oldest-pending query can run: no
reservation is selected, no notification is emitted, no
`notification_sent` flag is set, and the state is returned unchanged. -/
theorem c5_promotion_amended (db : DB) (bid : Nat) :
    process_next_reservation db bid =
      (Except.error PyException.moduleNotFoundError, db) ∧
    (process_next_reservation db bid).2.notifications = db.notifications ∧
    (process_next_reservation db bid).2.reservations = db.reservations :=
  ⟨rfl, rfl, rfl⟩

/-- C6 counterexample: in `dbBase` user 1 has no pending reservation for
book 1, yet `get_queue_position` returns `some 1`, not `none`: the
`COUNT(*)` query always yields one row, and the comparison with the empty
scalar subquery simply never holds, so the method returns `0 + 1`. -/
theorem c6_counterexample :
    ownPending dbBase 1 1 = [] ∧ get_queue_position dbBase 1 1 = some 1 := by
  decide

/-- C6 (amended): when the holder has exactly one pending reservation of
the item, the reported position is one plus the number of pending
reservations of the item with a strictly earlier `reservation_date`; when
the holder has none, the method returns `some 1` rather than the `none`
the claim states. -/
theorem c6_queue_position_amended (db : DB) (bid uid : Nat) (hc : db.connected = true) :
    (∀ (rid : Nat) (r : ReservRec), ownPending db bid uid = [(rid, r)] →
      get_queue_position db bid uid =
        some ((db.reservations.filter (fun p =>
          p.2.book_id == bid && p.2.status == "pending" &&
          decide (p.2.reservation_date < r.reservation_date))).length + 1)) ∧
    (ownPending db bid uid = [] → get_queue_position db bid uid = some 1) := by
  constructor
  · intro rid r hown
    simp only [get_queue_position, hc, Bool.not_true, Bool.false_eq_true, if_false, hown,
      List.head?_cons]
    rfl
  · intro hown
    simp only [get_queue_position, hc, Bool.not_true, Bool.false_eq_true, if_false, hown,
      List.head?_nil]
    simp

/-- Witness for C6 (amended): user 2 is second in line on `dbRes`. -/
theorem c6_witness :
    get_queue_position dbRes 1 2 =
      some ((dbRes.reservations.filter (fun p =>
        p.2.book_id == 1 && p.2.status == "pending" &&
        decide (p.2.reservation_date < resTwo.reservation_date))).length + 1) :=
  (c6_queue_position_amended dbRes 1 2 (by decide)).1 2 resTwo (by decide)

/-- C7 (code bug): on `dbRet` the first Return does not succeed — it
commits the loan update and the single availability increment (0 → 1) and
then raises `ModuleNotFoundError` from the promotion step
(lending.py:96→269) instead of returning `True`; the second Return finds
the loan no longer active and fails with the state of the first call
untouched, the increment having happened exactly once across the two
calls. -/
theorem c7_return_twice :
    (lookupRow 1 dbRet.books).map BookRec.available_copies = some 0 ∧
    (return_book dbRet 1 0 20).1 = Except.error PyException.moduleNotFoundError ∧
    (return_book (return_book dbRet 1 0 20).2 1 0 21).1 = Except.ok false ∧
    (return_book (return_book dbRet 1 0 20).2 1 0 21).2 = (return_book dbRet 1 0 20).2 ∧
    (lookupRow 1 (return_book (return_book dbRet 1 0 20).2 1 0 21).2.books).map
      BookRec.available_copies = some 1 :=
  ⟨by decide, rfl, rfl, by decide, by decide⟩

/-- C8 (code bug): on `dbRes` — book 1 has pending reservations —
promotion does leave the item's availability and every reservation status
unchanged, but not because its only effect is the notification insert:
`_process_next_reservation` raises `ModuleNotFoundError` on its stray
module import before its first query, inserts nothing, and hands back the state
entirely unchanged, so the notification record the claim promises never
appears. -/
theorem c8_promotion_frame :
    (process_next_reservation dbRes 1).2 = dbRes ∧
    (process_next_reservation dbRes 1).2.notifications = [] ∧
    (process_next_reservation dbRes 1).1 =
      Except.error PyException.moduleNotFoundError :=
  ⟨rfl, rfl, rfl⟩

/-- C9: for an active loan the fine is the pure function
`max 0 (returnDay - dueDay) * ratePerDay` of due date, return date and
rate (zero days when the return is on or before the due date), with the
spec's two instances: due 2024-01-10 (day 19732), returned 2024-01-15
(day 19737) at rate 1 gives 5; returned 2024-01-05 (day 19727) gives 0. -/
theorem c9_fine_formula :
    (∀ (due n : Int) (rate : ℚ),
        calculate_fine "active" (some due) n rate = ((max 0 (n - due) : Int) : ℚ) * rate) ∧
    calculate_fine "active" (some 19732) 19737 1 = 5 ∧
    calculate_fine "active" (some 19732) 19727 1 = 0 := by
  refine ⟨?_, ?_, ?_⟩
  · intro due n rate
    by_cases h : due < n
    · have hd : days_overdue "active" (some due) n = n - due := by
        simp [days_overdue, is_overdue, h]
      simp only [calculate_fine, hd]
      rw [if_pos (by omega), max_eq_right (by omega)]
    · have hd : days_overdue "active" (some due) n = 0 := by
        simp [days_overdue, is_overdue, h]
      simp only [calculate_fine, hd]
      rw [if_neg (by omega), max_eq_left (by omega)]
      simp
  · norm_num [calculate_fine, days_overdue, is_overdue]
  · norm_num [calculate_fine, days_overdue, is_overdue]

/-- C10: with the database manager disconnected, `issue_book`,
`return_book`, `create_reservation` and `get_queue_position` all return
their failure value immediately and perform no state change. -/
theorem c10_disconnected_noop (db : DB) (h : db.connected = false) :
    ∀ (bid uid lid : Nat) (d n : Int) (f : ℚ),
      issue_book db bid uid d n = (none, db) ∧
      return_book db lid f n = (Except.ok false, db) ∧
      create_reservation db bid uid n = (none, db) ∧
      get_queue_position db bid uid = none := by
  intro bid uid lid d n f
  refine ⟨?_, ?_, ?_, ?_⟩ <;>
    simp [issue_book, return_book, create_reservation, get_queue_position, h]

/-- Witness for C10 on the disconnected state `dbOff`. -/
theorem c10_witness :
    issue_book dbOff 1 1 14 0 = (none, dbOff) ∧
    return_book dbOff 1 0 0 = (Except.ok false, dbOff) ∧
    create_reservation dbOff 1 1 0 = (none, dbOff) ∧
    get_queue_position dbOff 1 1 = none :=
  c10_disconnected_noop dbOff (by decide) 1 1 1 14 0 0
